import Mathlib

/-!
Verification of the normalization-and-aggregation pipeline of the Service
dashboard repository.

The repository contains two near-identical variants of the pipeline:
  - `service_dashboard.py` (data fetched from a Google Apps Script URL), and
  - `simple_dashboard.py`  (data loaded from an uploaded CSV file).

This file gives a shallow embedding of the functions
`fetch_data_from_sheets` / `load_csv_file`, `normalize_dataframe`,
`calculate_kpis`, `create_tutor_performance`, `create_team_performance`
and `create_course_analysis` of both variants, and proves (or refutes)
the specification claims about them.

Modelling conventions:
  - A dataframe cell is `Option String`: `none` models a pandas missing
    value (`NaN`); `some s` models a string value.  The pipeline only ever
    inspects cells through `str(x)`, truthiness, and `notna`, so string
    cells suffice to cover the behaviours the claims are about.
  - A dataframe is a `Table`: a list of `Row`s together with one boolean
    per column recording whether the column is present (column presence in
    pandas is a property of the frame, not of single rows).  The column
    renaming step of `normalize_dataframe` maps each known source column
    name onto a canonical field of `Row`, so in the embedding the rename
    is the identity on the canonical slots; renaming an already canonical
    name is also the identity in the source, since the rename mapping only
    touches the raw source names.
  - Fields of `Row` that the verified functions never read (contact,
    package hours, email, joining date, month, new/old) are omitted.
  - Python float arithmetic `round(a / b * 100, 1)` is modelled exactly
    over `ℚ` with round-half-to-even (the rounding Python `round` and
    numpy `.round` use).  The executable definition `roundPct1` works on
    integers and `mkRat`; the lemma `roundPct1_eq_pyroundQ` proves it
    equal to the transparent rational formula `pyroundQ ((a / b) * 100)`.
  - Functions that can raise in pandas are embedded into `Except String`;
    `.error` models a raised exception (pandas `KeyError` for a missing
    aggregation column).
-/

/-! ## Python string primitives -/

/-- Python whitespace characters stripped by `str.strip()`. -/
def isPySpace (c : Char) : Bool :=
  c == ' ' || c == '\t' || c == '\n' || c == '\r' || c == '\x0b' || c == '\x0c'

/-- Python `s.strip()`: drop leading and trailing whitespace. -/
def pyStrip (s : String) : String :=
  String.mk (((s.data.dropWhile isPySpace).reverse.dropWhile isPySpace).reverse)

/-- Python `s.lower()` (the source only ever feeds it ASCII text). -/
def pyLower (s : String) : String :=
  String.mk (s.data.map Char.toLower)

/-- Python `len(s)`: the number of characters of `s`. -/
def pyLen (s : String) : Nat := s.data.length

/-- Does `pat` occur as a contiguous run inside `hay`? -/
def hasSubstr : List Char → List Char → Bool
  | hay, pat =>
    pat.isPrefixOf hay ||
      match hay with
      | [] => false
      | _ :: t => hasSubstr t pat

/-- Python `pat in s` on strings. -/
def strContains (s pat : String) : Bool := hasSubstr s.data pat.data

/-! ## Cells -/

/-- A dataframe cell: `none` is a pandas missing value (`NaN`). -/
abbrev Cell := Option String

/-- Python `str(x)` on a cell: a pandas missing value prints as `"nan"`. -/
def cellStr : Cell → String
  | none => "nan"
  | some s => s

/-- Python truthiness `bool(x)` of a cell: `float("nan")` is truthy,
the empty string is falsy, any other string is truthy. -/
def cellBool : Cell → Bool
  | none => true
  | some s => s != ""

/-! ## Status and completion heuristics -/

/-- `clean_status` from `service_dashboard.normalize_dataframe`
(lines 156-164): lower-case and strip the raw status text, classify as
`"Started"` if it contains `"started"` without containing `"not"`, or
contains `"yes"`; otherwise `"Not Started"`. -/
def clean_status (x : Cell) : String :=
  let s := pyStrip (pyLower (cellStr x))
  if strContains s "started" && !(strContains s "not") then "Started"
  else if strContains s "yes" then "Started"
  else "Not Started"

/-- The status lambda of `simple_dashboard.normalize_dataframe`
(lines 113-115): lower-case (no strip), classify as `"Started"` if the
text contains `"start"` or `"yes"`; otherwise `"Not Started"`.  Unlike
`clean_status` it matches the bare stem `"start"` and has no `"not"`
exclusion. -/
def cleanStatusSimple (x : Cell) : String :=
  let s := pyLower (cellStr x)
  if strContains s "start" || strContains s "yes" then "Started" else "Not Started"

/-- The classification rule exactly as the specification words it
(spec section 4.2 step 3, quoted by claim C1): the text classifies as
Started if it contains "started" without containing "not", or contains
"yes".  Used to compare the two implementations against the spec. -/
def specStartedRule (s : String) : Bool :=
  (strContains s "started" && !(strContains s "not")) || strContains s "yes"

/-- The empty-sentinel strings of `service_dashboard.normalize_dataframe`
line 177. -/
def sentinels : List String := ["", "nan", "None", "NaT"]

/-- The completion lambda of `service_dashboard.normalize_dataframe`
line 177: `bool(x) and str(x).strip() not in ['', 'nan', 'None', 'NaT']`. -/
def is_completed_service (x : Cell) : Bool :=
  cellBool x && !(sentinels.contains (pyStrip (cellStr x)))

/-- The completion test of `simple_dashboard.normalize_dataframe`
line 119: `df['Completed_Date'].notna() & (df['Completed_Date'] != '')`. -/
def is_completed_simple (x : Cell) : Bool :=
  x.isSome && x != some ""

/-- The start-date override mask of `service_dashboard.normalize_dataframe`
line 171: `astype(str).str.strip().str.len() > 4`. -/
def startedDateLong (x : Cell) : Bool :=
  4 < pyLen (pyStrip (cellStr x))

/-! ## Rows and tables -/

/-- One record, restricted to the canonical columns the verified functions
read.  The three derived fields carry junk defaults while their column is
absent; the `Table` flags below say which columns exist. -/
structure Row where
  studentName : Cell := none
  course : Cell := none
  status : Cell := none
  startedDate : Cell := none
  completedDate : Cell := none
  tutor : Cell := none
  team : Cell := none
  statusClean : String := ""
  isCompleted : Bool := false
  completionStatus : String := ""
deriving Repr, DecidableEq

/-- A dataframe: per-column presence flags plus the list of rows. -/
structure Table where
  hasStudentName : Bool := false
  hasCourse : Bool := false
  hasStatus : Bool := false
  hasStartedDate : Bool := false
  hasCompletedDate : Bool := false
  hasTutor : Bool := false
  hasTeam : Bool := false
  hasStatusClean : Bool := false
  hasIsCompleted : Bool := false
  hasCompletionStatus : Bool := false
  rows : List Row := []
deriving Repr, DecidableEq

/-! ## normalize_dataframe -/

/-- The per-row effect of `service_dashboard.normalize_dataframe` on a
non-empty frame: derive `Status_Clean` when a `Status` column exists
(line 166), apply the `Started_Date` override when both `Started_Date`
and `Status_Clean` columns exist (line 171), then always write
`Is_Completed` and `Completion_Status` (lines 174-185; all `False` /
`"In Progress"` when there is no `Completed_Date` column). -/
def serviceNormRow (hasStatus applyOverride hasCompletedDate : Bool) (r : Row) : Row :=
  { r with
      statusClean :=
        if applyOverride && startedDateLong r.startedDate then "Started"
        else if hasStatus then clean_status r.status
        else r.statusClean
      isCompleted :=
        if hasCompletedDate then is_completed_service r.completedDate else false
      completionStatus :=
        if (if hasCompletedDate then is_completed_service r.completedDate else false)
        then "Completed" else "In Progress" }

/-- `normalize_dataframe` of `service_dashboard.py` (lines 129-187).
An empty frame is returned unchanged (line 131).  The column rename (line
152) is the identity on the canonical slots of `Row`. -/
def normalize_dataframe_service (t : Table) : Table :=
  if t.rows.isEmpty then t else
  let hasSC := t.hasStatusClean || t.hasStatus
  let ov := t.hasStartedDate && hasSC
  { t with
      hasStatusClean := hasSC,
      hasIsCompleted := true,
      hasCompletionStatus := true,
      rows := t.rows.map (serviceNormRow t.hasStatus ov t.hasCompletedDate) }

/-- The per-row effect of `simple_dashboard.normalize_dataframe` on a
non-empty frame: derive `Status_Clean` when a `Status` column exists
(lines 112-115), and derive `Is_Completed` / `Completion_Status` only
when a `Completed_Date` column exists (lines 118-122); there is no
start-date override step and no else-branch for a missing
`Completed_Date` column. -/
def simpleNormRow (hasStatus hasCompletedDate : Bool) (r : Row) : Row :=
  { r with
      statusClean := if hasStatus then cleanStatusSimple r.status else r.statusClean
      isCompleted :=
        if hasCompletedDate then is_completed_simple r.completedDate else r.isCompleted
      completionStatus :=
        if hasCompletedDate then
          (if is_completed_simple r.completedDate then "Completed" else "In Progress")
        else r.completionStatus }

/-- `normalize_dataframe` of `simple_dashboard.py` (lines 85-124). -/
def normalize_dataframe_simple (t : Table) : Table :=
  if t.rows.isEmpty then t else
  { t with
      hasStatusClean := t.hasStatusClean || t.hasStatus,
      hasIsCompleted := t.hasIsCompleted || t.hasCompletedDate,
      hasCompletionStatus := t.hasCompletionStatus || t.hasCompletedDate,
      rows := t.rows.map (simpleNormRow t.hasStatus t.hasCompletedDate) }

/-! ## Rounding

Python `round(x, 1)` (and numpy `.round(1)`) round half to even.  The
executable integer form is `rnearestEven`; `pyroundQ` is the transparent
rational form, and the two are proved equal below
(`roundPct1_eq_pyroundQ`). -/

/-- Round the rational `n / d` (with `d > 0`) to the nearest integer,
ties to even. -/
def rnearestEven (n d : ℤ) : ℤ :=
  if 2 * (n % d) < d then n / d
  else if d < 2 * (n % d) then n / d + 1
  else if (n / d) % 2 = 0 then n / d else n / d + 1

/-- Python `round(a / b * 100, 1)` for counts `a`, `b` with `b > 0`,
as an exact rational. -/
def roundPct1 (a b : Nat) : ℚ := mkRat (rnearestEven (1000 * a) b) 10

/-- Round half to even on `ℚ`, written with the floor function. -/
def roundHalfEvenQ (x : ℚ) : ℤ :=
  if x - ⌊x⌋ < 1 / 2 then ⌊x⌋
  else if 1 / 2 < x - ⌊x⌋ then ⌊x⌋ + 1
  else if ⌊x⌋ % 2 = 0 then ⌊x⌋ else ⌊x⌋ + 1

/-- Python `round(x, 1)` as a rational: round `10 x` half to even, then
divide by ten. -/
def pyroundQ (x : ℚ) : ℚ := (roundHalfEvenQ (x * 10) : ℚ) / 10

/-! ## calculate_kpis -/

/-- The result record of `calculate_kpis` (the three `top_*` mode fields
are not covered by any claim and are omitted).  `in_progress` is an
integer because `started - completed` can be negative (claim C10). -/
structure KPIs where
  total_students : Nat
  started : Nat
  not_started : Nat
  completed : Nat
  in_progress : Int
  start_rate : ℚ
  completion_rate : ℚ
deriving Repr, DecidableEq

/-- `len(df[df['Status_Clean'] == 'Started'])` guarded by column
presence (`calculate_kpis` line 197 of the service variant, line 132 of
the simple variant). -/
def countStarted (t : Table) : Nat :=
  if t.hasStatusClean then (t.rows.filter (fun r => r.statusClean == "Started")).length
  else 0

/-- `df['Is_Completed'].sum()` guarded by column presence
(`calculate_kpis` line 201 / 134). -/
def sumCompleted (t : Table) : Nat :=
  if t.hasIsCompleted then (t.rows.filter (fun r => r.isCompleted)).length
  else 0

/-- `calculate_kpis` (identical in `service_dashboard.py` lines 189-224
and `simple_dashboard.py` lines 126-154): `none` models the empty dict
returned for an empty frame. -/
def calculate_kpis (t : Table) : Option KPIs :=
  if t.rows.isEmpty then none else
  let total := t.rows.length
  let started := countStarted t
  let completed := sumCompleted t
  some {
    total_students := total
    started := started
    not_started := total - started
    completed := completed
    in_progress := (started : Int) - (completed : Int)
    start_rate := if 0 < total then roundPct1 started total else 0
    completion_rate := if 0 < total then roundPct1 completed total else 0 }

/-! ## Grouped breakdowns -/

/-- One output row of a grouped breakdown.  `in_Progress` and
`start_Rate_Pct` are `Option`s because only the tutor breakdown has the
`In_Progress` and `Start_Rate_%` columns; the team and course breakdowns
produce `none` there. -/
structure BreakRow where
  key : String
  total_Students : Nat
  started : Nat
  completed : Nat
  in_Progress : Option Nat
  start_Rate_Pct : Option ℚ
  completion_Rate_Pct : ℚ
deriving Repr, DecidableEq

/-- The rows of one group: pandas `groupby` collects the rows whose key
cell equals the (non-null) group key. -/
def groupCells (key : Row → Cell) (rows : List Row) (v : String) : List Row :=
  rows.filter (fun r => key r == some v)

/-- The group keys of `groupby`: the distinct non-null values of the key
column (pandas drops null keys). -/
def groupKeys (key : Row → Cell) (rows : List Row) : List String :=
  (rows.filterMap key).dedup

/-- The aggregation of one group (`.agg` in the three `create_*`
functions): `Total_Students` counts the non-null `Student_Name` cells of
the group (pandas `'count'`), `Started` counts `Status_Clean ==
'Started'`, `Completed` sums `Is_Completed`, and for the tutor breakdown
`In_Progress` counts `Completion_Status == 'In Progress'`.  The rates
are `np.where`-guarded: 0 when the denominator is 0. -/
def statRow (withTutorCols : Bool) (key : Row → Cell) (rows : List Row) (v : String) :
    BreakRow :=
  let g := groupCells key rows v
  let tot := (g.filter (fun r => r.studentName.isSome)).length
  let st := (g.filter (fun r => r.statusClean == "Started")).length
  let comp := (g.filter (fun r => r.isCompleted)).length
  { key := v
    total_Students := tot
    started := st
    completed := comp
    in_Progress :=
      if withTutorCols then
        some ((g.filter (fun r => r.completionStatus == "In Progress")).length)
      else none
    start_Rate_Pct :=
      if withTutorCols then some (if 0 < tot then roundPct1 st tot else 0) else none
    completion_Rate_Pct := if 0 < st then roundPct1 comp st else 0 }

/-- Sort key of `sort_values('Total_Students', ascending=False)`. -/
def byTotalDesc (a b : BreakRow) : Prop := b.total_Students ≤ a.total_Students

instance : DecidableRel byTotalDesc := fun _ _ => Nat.decLe _ _

instance : IsTotal BreakRow byTotalDesc :=
  ⟨fun a b => le_total b.total_Students a.total_Students⟩

instance : IsTrans BreakRow byTotalDesc :=
  ⟨fun _ _ _ h1 h2 => le_trans h2 h1⟩

/-- The grouped breakdown: one aggregated row per distinct non-null key,
sorted by `Total_Students` descending.  (The spec leaves tie order
implementation-defined, so the choice of a stable insertion sort over
first-seen group order is within contract.) -/
def breakdownRows (withTutorCols : Bool) (key : Row → Cell) (rows : List Row) :
    List BreakRow :=
  List.insertionSort byTotalDesc ((groupKeys key rows).map (statRow withTutorCols key rows))

/-- `create_tutor_performance` (identical in both variants): empty
result for an empty frame or a missing `Tutor` column; a raised pandas
`KeyError` — modelled as `.error` — when any of the four aggregated
columns is missing from the frame; otherwise the tutor breakdown. -/
def create_tutor_performance (t : Table) : Except String (List BreakRow) :=
  if t.rows.isEmpty || !t.hasTutor then .ok []
  else if !(t.hasStudentName && t.hasStatusClean && t.hasIsCompleted &&
            t.hasCompletionStatus) then
    .error "KeyError: aggregation column does not exist"
  else .ok (breakdownRows true (fun r => r.tutor) t.rows)

/-- `create_team_performance` (identical in both variants): like the
tutor breakdown but grouped by `Team` and without the `In_Progress` and
`Start_Rate_%` columns. -/
def create_team_performance (t : Table) : Except String (List BreakRow) :=
  if t.rows.isEmpty || !t.hasTeam then .ok []
  else if !(t.hasStudentName && t.hasStatusClean && t.hasIsCompleted) then
    .error "KeyError: aggregation column does not exist"
  else .ok (breakdownRows false (fun r => r.team) t.rows)

/-- `create_course_analysis` (both variants; the service variant's
`astype(int).sum()` for `Completed` equals the plain sum of booleans). -/
def create_course_analysis (t : Table) : Except String (List BreakRow) :=
  if t.rows.isEmpty || !t.hasCourse then .ok []
  else if !(t.hasStudentName && t.hasStatusClean && t.hasIsCompleted) then
    .error "KeyError: aggregation column does not exist"
  else .ok (breakdownRows false (fun r => r.course) t.rows)

/-! ## Source adapters -/

/-- A Python value as the adapters can return it in the second
component of their result pair: Python `None` (JSON `null`), a string,
or any other JSON value (number, boolean, list, dict — the embedding
keeps only its printed form, which none of the claims inspect). -/
inductive PyVal where
  | noneV
  | strV (s : String)
  | otherV (rep : String)
deriving Repr, DecidableEq

/-- Is this Python value a string? -/
def PyVal.isStr : PyVal → Bool
  | .strV _ => true
  | _ => false

/-- The observable outcome of the body of `fetch_data_from_sheets`
before its own control flow: either some exception was raised inside the
`try` block (transport failure, `raise_for_status` on a non-2xx reply,
JSON decoding failure, or a frame-construction failure), or a JSON value
was produced: a dict with a `data` list, a dict without one (whose
`error` key is absent — `none` — or stores an arbitrary JSON value,
including `null` or a non-string), or a non-dict value (on which `.get`
raises `AttributeError`, caught by the same `except`). -/
inductive FetchOutcome where
  | exc (msg : String)
  | dictWithData (rows : List Row)
  | dictNoData (errorField : Option PyVal)
  | nonDict
deriving Repr, DecidableEq

/-- `fetch_data_from_sheets` of `service_dashboard.py` (lines 114-127):
returns `(frame, None)` on success; the whole body sits inside
`try/except Exception`, so every raised exception is converted into
`(None, str(e))`.  For a dict without a `data` key the second component
is `data.get('error', 'Unknown error')`: the default string when the
`error` key is absent, otherwise the stored value verbatim — which is
`None` itself when the dict is `{"error": null}`. -/
def fetch_data_from_sheets (o : FetchOutcome) : Option (List Row) × PyVal :=
  match o with
  | .exc msg => (none, .strV msg)
  | .dictWithData rows => (some rows, .noneV)
  | .dictNoData none => (none, .strV "Unknown error")
  | .dictNoData (some v) => (none, v)
  | .nonDict => (none, .strV "AttributeError: object has no attribute get")

/-- `load_csv_file` of `simple_dashboard.py` (lines 77-83): the argument
is the outcome of `pd.read_csv` (a parsed frame or a raised parse
error); the function converts it into `(frame, None)` or
`(None, str(e))`. -/
def load_csv_file (parse : Except String (List Row)) : Option (List Row) × PyVal :=
  match parse with
  | .ok rows => (some rows, .noneV)
  | .error e => (none, .strV e)

/-! ## Concrete example tables

These are the concrete inputs used by the claim witnesses and
counterexamples below.  `specRaw` is the three-row example from the
specification (section 8). -/

/-- The raw three-row example table of spec section 8: statuses
`"Started"`, `"not started"`, `"yes"` and completion dates
`"2023-01-01"`, `""`, `"NaT"`. -/
def specRaw : Table :=
  { hasStatus := true, hasCompletedDate := true,
    rows := [ { status := some "Started", completedDate := some "2023-01-01" },
              { status := some "not started", completedDate := some "" },
              { status := some "yes", completedDate := some "NaT" } ] }

/-- The spec example table after service-variant normalization. -/
def specExample : Table := normalize_dataframe_service specRaw

/-- A table with a raw status column whose single status text is
`"not started"`. -/
def c1T : Table := { hasStatus := true, rows := [{ status := some "not started" }] }

/-- A table whose completion dates are the three values of the spec
example: `"2023-01-01"`, `""`, `"NaT"`. -/
def c2T : Table :=
  { hasCompletedDate := true,
    rows := [ { completedDate := some "2023-01-01" }, { completedDate := some "" },
              { completedDate := some "NaT" } ] }

/-- A table with a long start date `"2024-03-01"` but status text
`"no"`, which the simple variant's text rule classifies as Not
Started. -/
def c3T : Table :=
  { hasStatus := true, hasStartedDate := true,
    rows := [{ status := some "no", startedDate := some "2024-03-01" }] }

/-- The spec's own override example: start date `"2024-03-01"` with
status text `"Not Started"`. -/
def c3WT : Table :=
  { hasStatus := true, hasStartedDate := true,
    rows := [{ status := some "Not Started", startedDate := some "2024-03-01" }] }

/-- A raw table whose tutor group `"A"` ends up with more completed
records (3) than started ones (2), and more started records than
non-null student names (1): the first record has a student name but a
status that classifies as Not Started, the other two are started and
completed but have a null `Student_Name` cell. -/
def c5T : Table :=
  { hasStatus := true, hasCompletedDate := true, hasTutor := true, hasStudentName := true,
    rows := [ { tutor := some "A", studentName := some "X", status := some "no",
                completedDate := some "2023-01-01" },
              { tutor := some "A", status := some "started",
                completedDate := some "2023-01-02" },
              { tutor := some "A", status := some "started",
                completedDate := some "2023-01-03" } ] }

/-- A two-row table in which the second record has a null `Tutor` cell,
so pandas `groupby('Tutor')` drops it. -/
def c6T : Table :=
  normalize_dataframe_service
    { hasStatus := true, hasTutor := true, hasStudentName := true,
      rows := [ { tutor := some "A", studentName := some "S", status := some "started" },
                { tutor := none, studentName := some "T", status := some "started" } ] }

/-- The breakdown row that `create_tutor_performance` produces on
`c6T`. -/
def c6Expected : List BreakRow :=
  [{ key := "A", total_Students := 1, started := 1, completed := 0,
     in_Progress := some 1, start_Rate_Pct := some 100, completion_Rate_Pct := 0 }]

/-- A normalized table used as witness input for the breakdown shape
claims: two tutors, all grouping and aggregation columns present. -/
def c6WT : Table :=
  normalize_dataframe_service
    { hasStatus := true, hasCompletedDate := true, hasTutor := true, hasTeam := true,
      hasCourse := true, hasStudentName := true,
      rows := [ { tutor := some "A", team := some "T1", course := some "Py",
                  studentName := some "S1", status := some "started",
                  completedDate := some "2023-01-01" },
                { tutor := some "B", team := some "T1", course := some "Py",
                  studentName := some "S2", status := some "no", completedDate := some "" },
                { tutor := some "A", team := some "T2", course := some "ML",
                  studentName := some "S3", status := some "yes",
                  completedDate := none } ] }

/-- A non-empty normalized table that has a `Tutor` column but no
`Student_Name` column. -/
def c7T : Table :=
  normalize_dataframe_service
    { hasStatus := true, hasTutor := true,
      rows := [{ tutor := some "A", status := some "yes" }] }

/-- The empty table (no columns, no rows). -/
def emptyTable : Table := {}

/-- A one-record table whose completion date is a real date but whose
status text classifies as Not Started, with no start-date column. -/
def c10T : Table :=
  { hasStatus := true, hasCompletedDate := true,
    rows := [{ status := some "no", completedDate := some "2023-05-05" }] }

/-! ## Lemmas: rounding -/

theorem rnearestEven_nonneg (n d : ℤ) (hn : 0 ≤ n) (hd : 0 < d) :
    0 ≤ rnearestEven n d := by
  unfold rnearestEven
  have hf : 0 ≤ n / d := Int.ediv_nonneg hn hd.le
  split_ifs <;> omega

theorem rnearestEven_le (n d m : ℤ) (hd : 0 < d) (h : n ≤ d * m) :
    rnearestEven n d ≤ m := by
  unfold rnearestEven
  have hid : d * (n / d) + n % d = n := Int.ediv_add_emod n d
  have hr0 : 0 ≤ n % d := Int.emod_nonneg n (by omega)
  have hrd : n % d < d := Int.emod_lt_of_pos n hd
  have hdf : d * (n / d) ≤ d * m := by linarith
  have hfm : n / d ≤ m := (mul_le_mul_left hd).mp hdf
  have hstep : d ≤ 2 * (n % d) → n / d + 1 ≤ m := by
    intro h2
    by_contra hc
    push_neg at hc
    have hmf : m ≤ n / d := Int.lt_add_one_iff.mp hc
    have : d * m ≤ d * (n / d) := (mul_le_mul_left hd).mpr hmf
    linarith
  split_ifs with h1 h2 h3
  · exact hfm
  · exact hstep (by omega)
  · exact hfm
  · exact hstep (by omega)

theorem roundPct1_nonneg (a b : ℕ) (hb : 0 < b) : 0 ≤ roundPct1 a b := by
  unfold roundPct1
  rw [Rat.mkRat_eq_div]
  have h := rnearestEven_nonneg (1000 * a) b (by positivity) (by exact_mod_cast hb)
  have h10 : (0:ℚ) ≤ 10 := by norm_num
  exact div_nonneg (by exact_mod_cast h) h10

theorem roundPct1_le_100 (a b : ℕ) (hb : 0 < b) (hab : a ≤ b) :
    roundPct1 a b ≤ 100 := by
  unfold roundPct1
  rw [Rat.mkRat_eq_div]
  have hab2 : (1000 * a : ℤ) ≤ (b : ℤ) * 1000 := by
    have : (a : ℤ) ≤ (b : ℤ) := by exact_mod_cast hab
    omega
  have h := rnearestEven_le (1000 * a) b 1000 (by exact_mod_cast hb) hab2
  have h10 : ((10 : ℕ) : ℚ) = 10 := by norm_num
  rw [h10, div_le_iff₀ (by norm_num : (0:ℚ) < 10)]
  have : ((rnearestEven (1000 * a) b : ℤ) : ℚ) ≤ ((1000 : ℤ) : ℚ) := by exact_mod_cast h
  push_cast at this ⊢
  linarith

theorem sub_floor_ratio (n : ℤ) (d : ℕ) (hd : 0 < d) :
    (n : ℚ) / (d : ℚ) - (⌊((n : ℚ) / (d : ℚ))⌋ : ℚ) = ((n % (d : ℤ) : ℤ) : ℚ) / (d : ℚ) := by
  have hid : ((d : ℤ)) * (n / (d : ℤ)) + n % (d : ℤ) = n := Int.ediv_add_emod n d
  have hcast : ((d : ℤ) : ℚ) * ((n / (d : ℤ) : ℤ) : ℚ) + ((n % (d : ℤ) : ℤ) : ℚ) = (n : ℚ) := by
    exact_mod_cast congrArg (fun z : ℤ => (z : ℚ)) hid
  have hd0 : ((d : ℕ) : ℚ) ≠ 0 := by positivity
  rw [Rat.floor_intCast_div_natCast]
  push_cast at hcast ⊢
  field_simp
  linarith

theorem ratio_lt_half_iff (r : ℤ) (d : ℕ) (hd : 0 < d) :
    (((r : ℤ) : ℚ) / (d : ℚ) < 1 / 2) ↔ 2 * r < (d : ℤ) := by
  have hdq : (0 : ℚ) < (d : ℚ) := by exact_mod_cast hd
  rw [div_lt_div_iff₀ hdq (by norm_num : (0:ℚ) < 2)]
  constructor
  · intro h
    have : ((2 * r : ℤ) : ℚ) < ((d : ℤ) : ℚ) := by push_cast; linarith
    exact_mod_cast this
  · intro h
    have : ((2 * r : ℤ) : ℚ) < ((d : ℤ) : ℚ) := by exact_mod_cast h
    push_cast at this
    linarith

theorem half_lt_ratio_iff (r : ℤ) (d : ℕ) (hd : 0 < d) :
    (1 / 2 < ((r : ℤ) : ℚ) / (d : ℚ)) ↔ (d : ℤ) < 2 * r := by
  have hdq : (0 : ℚ) < (d : ℚ) := by exact_mod_cast hd
  rw [div_lt_div_iff₀ (by norm_num : (0:ℚ) < 2) hdq]
  constructor
  · intro h
    have : ((d : ℤ) : ℚ) < ((2 * r : ℤ) : ℚ) := by push_cast; linarith
    exact_mod_cast this
  · intro h
    have : ((d : ℤ) : ℚ) < ((2 * r : ℤ) : ℚ) := by exact_mod_cast h
    push_cast at this
    linarith

theorem roundHalfEvenQ_ratio (n : ℤ) (d : ℕ) (hd : 0 < d) :
    roundHalfEvenQ ((n : ℚ) / (d : ℚ)) = rnearestEven n d := by
  unfold roundHalfEvenQ rnearestEven
  rw [sub_floor_ratio n d hd, Rat.floor_intCast_div_natCast]
  by_cases h1 : 2 * (n % (d : ℤ)) < (d : ℤ)
  · rw [if_pos ((ratio_lt_half_iff _ d hd).mpr h1), if_pos h1]
  · rw [if_neg (fun hc => h1 ((ratio_lt_half_iff _ d hd).mp hc)), if_neg h1]
    by_cases h2 : (d : ℤ) < 2 * (n % (d : ℤ))
    · rw [if_pos ((half_lt_ratio_iff _ d hd).mpr h2), if_pos h2]
    · rw [if_neg (fun hc => h2 ((half_lt_ratio_iff _ d hd).mp hc)), if_neg h2]

theorem roundPct1_eq_pyroundQ (a b : ℕ) (hb : 0 < b) :
    roundPct1 a b = pyroundQ ((a : ℚ) / (b : ℚ) * 100) := by
  unfold roundPct1 pyroundQ
  have hx : ((a : ℚ) / (b : ℚ) * 100) * 10 = ((1000 * a : ℤ) : ℚ) / (b : ℚ) := by
    have hb0 : ((b : ℕ) : ℚ) ≠ 0 := by positivity
    push_cast
    field_simp
    ring
  rw [hx, roundHalfEvenQ_ratio _ b hb, Rat.mkRat_eq_div]
  norm_num

/-! ## Lemmas: normalization -/
/-! ## Lemmas: normalization -/

theorem clean_status_two_valued (x : Cell) :
    clean_status x = "Started" ∨ clean_status x = "Not Started" := by
  unfold clean_status
  dsimp only
  split_ifs <;> simp

theorem cleanStatusSimple_two_valued (x : Cell) :
    cleanStatusSimple x = "Started" ∨ cleanStatusSimple x = "Not Started" := by
  unfold cleanStatusSimple
  dsimp only
  split_ifs <;> simp

theorem serviceNormRow_raw_fields (hs ov hcd : Bool) (r : Row) :
    (serviceNormRow hs ov hcd r).status = r.status ∧
    (serviceNormRow hs ov hcd r).startedDate = r.startedDate ∧
    (serviceNormRow hs ov hcd r).completedDate = r.completedDate :=
  ⟨rfl, rfl, rfl⟩

theorem serviceNormRow_statusClean (hs ov hcd : Bool) (r : Row) :
    (serviceNormRow hs ov hcd r).statusClean =
      if ov && startedDateLong r.startedDate then "Started"
      else if hs then clean_status r.status
      else r.statusClean := rfl

theorem serviceNormRow_isCompleted (hs ov hcd : Bool) (r : Row) :
    (serviceNormRow hs ov hcd r).isCompleted =
      if hcd then is_completed_service r.completedDate else false := rfl

theorem serviceNormRow_idem (hs ov hcd : Bool) (r : Row) :
    serviceNormRow hs ov hcd (serviceNormRow hs ov hcd r) = serviceNormRow hs ov hcd r := by
  unfold serviceNormRow
  split_ifs <;> rfl

theorem simpleNormRow_raw_fields (hs hcd : Bool) (r : Row) :
    (simpleNormRow hs hcd r).status = r.status ∧
    (simpleNormRow hs hcd r).startedDate = r.startedDate ∧
    (simpleNormRow hs hcd r).completedDate = r.completedDate :=
  ⟨rfl, rfl, rfl⟩

theorem simpleNormRow_statusClean (hs hcd : Bool) (r : Row) :
    (simpleNormRow hs hcd r).statusClean =
      if hs then cleanStatusSimple r.status else r.statusClean := rfl

theorem simpleNormRow_isCompleted (hs hcd : Bool) (r : Row) :
    (simpleNormRow hs hcd r).isCompleted =
      if hcd then is_completed_simple r.completedDate else r.isCompleted := rfl

theorem simpleNormRow_idem (hs hcd : Bool) (r : Row) :
    simpleNormRow hs hcd (simpleNormRow hs hcd r) = simpleNormRow hs hcd r := by
  unfold simpleNormRow
  split_ifs <;> rfl

theorem map_isEmpty_eq {α β : Type} (f : α → β) (l : List α) :
    (l.map f).isEmpty = l.isEmpty := by
  cases l <;> rfl

/-! ## Lemmas: counting and grouping -/

theorem length_filter_split {α : Type} (P Q : α → Bool) (l : List α) :
    (l.filter fun a => Q a && P a).length + (l.filter fun a => !Q a && P a).length
      = (l.filter P).length := by
  induction l with
  | nil => rfl
  | cons a l ih =>
    cases hQ : Q a <;> cases hP : P a <;>
      simp [List.filter_cons, hQ, hP] <;> omega

theorem sum_group_counts {α : Type} (key : α → Option String) (p : α → Bool) :
    ∀ (keys : List String) (rows : List α), keys.Nodup →
      (∀ r ∈ rows, ∀ v, key r = some v → v ∈ keys) →
      (keys.map (fun v => (rows.filter (fun r => key r == some v && p r)).length)).sum
        = (rows.filter (fun r => (key r).isSome && p r)).length := by
  intro keys
  induction keys with
  | nil =>
    intro rows _ hcov
    have hnil : rows.filter (fun r => (key r).isSome && p r) = [] := by
      rw [List.filter_eq_nil_iff]
      intro a ha hcontra
      have h1 : (key a).isSome = true := by
        cases h : key a
        · rw [h] at hcontra; simp at hcontra
        · rfl
      obtain ⟨v, hv⟩ := Option.isSome_iff_exists.mp h1
      exact absurd (hcov a ha v hv) (List.not_mem_nil v)
    simp [hnil]
  | cons k ks ih =>
    intro rows hnd hcov
    have hk_notin : k ∉ ks := (List.nodup_cons.mp hnd).1
    have hnd2 : ks.Nodup := (List.nodup_cons.mp hnd).2
    -- counts over the keys of the tail are unchanged after dropping the rows of group k
    have hmapeq : ∀ v ∈ ks,
        (rows.filter (fun r => key r == some v && p r)).length
          = ((rows.filter (fun r => !(key r == some k))).filter
              (fun r => key r == some v && p r)).length := by
      intro v hv
      rw [List.filter_filter]
      have hvk : v ≠ k := fun h => hk_notin (h ▸ hv)
      have : ∀ a ∈ rows,
          (key a == some v && p a) = ((key a == some v && p a) && !(key a == some k)) := by
        intro a _
        by_cases hka : key a = some v
        · have : (key a == some k) = false := by
            rw [hka]; simp [hvk]
          simp [this]
        · have : (key a == some v) = false := by simp [hka]
          simp [this]
      rw [List.filter_congr this]
    have hcov2 : ∀ r ∈ rows.filter (fun r => !(key r == some k)), ∀ v,
        key r = some v → v ∈ ks := by
      intro r hr v hv
      have hrr := List.mem_filter.mp hr
      rcases List.mem_cons.mp (hcov r hrr.1 v hv) with h | h
      · exfalso
        have : (key r == some k) = false := by
          have := hrr.2
          simpa using this
        rw [hv, h] at this
        simp at this
      · exact h
    have ihres := ih (rows.filter (fun r => !(key r == some k))) hnd2 hcov2
    -- split the overall count into group k and the rest
    have hsplit := length_filter_split (fun r => (key r).isSome && p r)
      (fun r => key r == some k) rows
    have hgk : (rows.filter (fun r => (key r == some k) && ((key r).isSome && p r))).length
        = (rows.filter (fun r => key r == some k && p r)).length := by
      congr 1
      apply List.filter_congr
      intro a _
      by_cases hka : key a = some k
      · simp [hka]
      · have : (key a == some k) = false := by simp [hka]
        simp [this]
    have hrest : (rows.filter (fun r => !(key r == some k) && ((key r).isSome && p r))).length
        = ((rows.filter (fun r => !(key r == some k))).filter
            (fun r => (key r).isSome && p r)).length := by
      rw [List.filter_filter]
      congr 1
      apply List.filter_congr
      intro a _
      rw [Bool.and_comm]
    rw [List.map_cons, List.sum_cons, List.map_congr_left hmapeq, ihres, ← hsplit,
      hgk, hrest]

theorem statRow_total (w : Bool) (key : Row → Cell) (rows : List Row) (v : String) :
    (statRow w key rows v).total_Students
      = (rows.filter (fun r => key r == some v && r.studentName.isSome)).length := by
  unfold statRow groupCells
  dsimp only
  rw [List.filter_filter]
  congr 1
  apply List.filter_congr
  intro a _
  rw [Bool.and_comm]

theorem breakdownRows_length (w : Bool) (key : Row → Cell) (rows : List Row) :
    (breakdownRows w key rows).length = ((rows.filterMap key).dedup).length := by
  unfold breakdownRows
  rw [(List.perm_insertionSort byTotalDesc _).length_eq, List.length_map]
  rfl

theorem breakdownRows_sum (w : Bool) (key : Row → Cell) (rows : List Row) :
    ((breakdownRows w key rows).map BreakRow.total_Students).sum
      = (rows.filter (fun r => (key r).isSome && r.studentName.isSome)).length := by
  unfold breakdownRows
  rw [((List.perm_insertionSort byTotalDesc
    ((groupKeys key rows).map (statRow w key rows))).map BreakRow.total_Students).sum_eq]
  rw [List.map_map]
  have hmap : (groupKeys key rows).map (BreakRow.total_Students ∘ statRow w key rows)
      = (groupKeys key rows).map
          (fun v => (rows.filter (fun r => key r == some v && r.studentName.isSome)).length) := by
    apply List.map_congr_left
    intro v _
    exact statRow_total w key rows v
  rw [hmap]
  exact sum_group_counts key (fun r => r.studentName.isSome) (groupKeys key rows) rows
    (List.nodup_dedup _)
    (fun r hr v hv => List.mem_dedup.mpr (List.mem_filterMap.mpr ⟨r, hr, hv⟩))

theorem breakdownRows_sorted (w : Bool) (key : Row → Cell) (rows : List Row) :
    (breakdownRows w key rows).Sorted byTotalDesc :=
  List.sorted_insertionSort byTotalDesc _

theorem rate_guard_bounds (a b : ℕ) :
    0 ≤ (if 0 < b then roundPct1 a b else 0) ∧
    (b = 0 → (if 0 < b then roundPct1 a b else 0) = 0) := by
  split_ifs with h
  · exact ⟨roundPct1_nonneg a b h, fun h0 => absurd (h0 ▸ h) (lt_irrefl 0)⟩
  · exact ⟨le_refl 0, fun _ => rfl⟩

theorem breakdownRows_rate_bounds (w : Bool) (key : Row → Cell) (rows : List Row) :
    ∀ b ∈ breakdownRows w key rows,
      0 ≤ b.completion_Rate_Pct ∧ (b.started = 0 → b.completion_Rate_Pct = 0) ∧
      ∀ q : ℚ, b.start_Rate_Pct = some q → 0 ≤ q ∧ (b.total_Students = 0 → q = 0) := by
  intro b hb
  have hb2 : b ∈ (groupKeys key rows).map (statRow w key rows) :=
    ((List.perm_insertionSort byTotalDesc _).mem_iff).mp hb
  obtain ⟨v, _, rfl⟩ := List.mem_map.mp hb2
  have hcr : (statRow w key rows v).completion_Rate_Pct =
      (if 0 < (statRow w key rows v).started then
        roundPct1 (statRow w key rows v).completed (statRow w key rows v).started
       else 0) := rfl
  have hsr : (statRow w key rows v).start_Rate_Pct =
      (if w then
        some (if 0 < (statRow w key rows v).total_Students then
          roundPct1 (statRow w key rows v).started (statRow w key rows v).total_Students
         else 0)
       else none) := rfl
  refine ⟨?_, ?_, ?_⟩
  · rw [hcr]
    exact (rate_guard_bounds _ _).1
  · intro h0
    rw [hcr]
    exact (rate_guard_bounds _ _).2 h0
  · intro q hq
    rw [hsr] at hq
    cases hw : w
    · rw [hw] at hq
      exact absurd hq (by simp)
    · rw [hw] at hq
      simp only [if_true] at hq
      have hq2 := Option.some.inj hq
      rw [← hq2]
      exact ⟨(rate_guard_bounds _ _).1, fun h0 => (rate_guard_bounds _ _).2 h0⟩

/-! ## Lemmas: KPIs -/

theorem countStarted_le_length (t : Table) : countStarted t ≤ t.rows.length := by
  unfold countStarted
  split_ifs
  · exact List.length_filter_le _ _
  · exact Nat.zero_le _

theorem sumCompleted_le_length (t : Table) : sumCompleted t ≤ t.rows.length := by
  unfold sumCompleted
  split_ifs
  · exact List.length_filter_le _ _
  · exact Nat.zero_le _

theorem calculate_kpis_some (t : Table) (h : t.rows ≠ []) :
    calculate_kpis t = some {
      total_students := t.rows.length
      started := countStarted t
      not_started := t.rows.length - countStarted t
      completed := sumCompleted t
      in_progress := (countStarted t : Int) - (sumCompleted t : Int)
      start_rate := roundPct1 (countStarted t) t.rows.length
      completion_rate := roundPct1 (sumCompleted t) t.rows.length } := by
  have hE : t.rows.isEmpty = false := by
    cases hr : t.rows
    · exact absurd hr h
    · rfl
  have hpos : 0 < t.rows.length := List.length_pos.mpr h
  unfold calculate_kpis
  rw [hE]
  simp only [Bool.false_eq_true, if_false, if_pos hpos]

/-! ## Claim C8 -/

/-- C8 as stated is false for `fetch_data_from_sheets`: on a JSON dict
without a `data` key, line 124 returns `data.get('error', 'Unknown
error')`, i.e. the *stored* value whenever the `error` key is present.
No exception is raised there, so the `except` does not convert it.  On
the reply `{"error": null}` the function therefore returns
`(None, None)`: the first component is no table and the second is not a
string, so the result is neither `(table, None)` nor
`(None, error-string)`. -/
theorem C8_counterexample :
    fetch_data_from_sheets (FetchOutcome.dictNoData (some PyVal.noneV)) =
      (none, PyVal.noneV) ∧
    (none : Option (List Row)).isSome = false ∧ PyVal.noneV.isStr = false :=
  ⟨rfl, rfl, rfl⟩

/-- C8 amended: neither adapter ever propagates an exception.
`load_csv_file` always returns `(table, None)` on success or
`(None, error-string)` on failure.  `fetch_data_from_sheets` returns
`(table, None)` for a dict with a `data` key and `(None, error-string)`
for every raised exception (transport failure, non-2xx response via
`raise_for_status`, JSON decoding failure), for a non-dict JSON value,
and for a dict without `data` whose `error` key is absent or stores a
string — but when that key stores JSON `null` or any non-string value,
the stored value is returned verbatim as the second component
(`{"error": null}` yields `(None, None)`). -/
theorem C8_amended_adapter_shape :
    (∀ o : FetchOutcome,
      (∃ rows, fetch_data_from_sheets o = (some rows, PyVal.noneV)) ∨
      (∃ e, fetch_data_from_sheets o = (none, PyVal.strV e)) ∨
      (∃ v, o = FetchOutcome.dictNoData (some v) ∧ v.isStr = false ∧
        fetch_data_from_sheets o = (none, v))) ∧
    (∀ p : Except String (List Row),
      (∃ rows, load_csv_file p = (some rows, PyVal.noneV)) ∨
      (∃ e, load_csv_file p = (none, PyVal.strV e))) := by
  constructor
  · intro o
    cases o with
    | exc m => exact Or.inr (Or.inl ⟨m, rfl⟩)
    | dictWithData rows => exact Or.inl ⟨rows, rfl⟩
    | dictNoData err =>
      cases err with
      | none => exact Or.inr (Or.inl ⟨"Unknown error", rfl⟩)
      | some v =>
        cases v with
        | noneV => exact Or.inr (Or.inr ⟨PyVal.noneV, rfl, rfl, rfl⟩)
        | strV s => exact Or.inr (Or.inl ⟨s, rfl⟩)
        | otherV rep => exact Or.inr (Or.inr ⟨PyVal.otherV rep, rfl, rfl, rfl⟩)
    | nonDict => exact Or.inr (Or.inl ⟨_, rfl⟩)
  · intro p
    cases p with
    | ok rows => exact Or.inl ⟨rows, rfl⟩
    | error e => exact Or.inr ⟨e, rfl⟩

/-! ## Claim C9 -/

/-- C9: `normalize_dataframe` is idempotent in both variants: a second
application returns the table of the first application unchanged
(structurally equal, hence in particular equal on all canonical columns
and on the derived fields `Status_Clean`, `Is_Completed`,
`Completion_Status`). -/
theorem C9_normalize_idempotent (t : Table) :
    normalize_dataframe_service (normalize_dataframe_service t) =
      normalize_dataframe_service t ∧
    normalize_dataframe_simple (normalize_dataframe_simple t) =
      normalize_dataframe_simple t := by
  constructor
  · cases hE : t.rows.isEmpty with
    | true =>
      have h1 : normalize_dataframe_service t = t := by
        unfold normalize_dataframe_service
        rw [hE]
        rfl
      rw [h1]
      exact h1
    | false =>
      unfold normalize_dataframe_service
      rw [hE]
      rw [if_neg Bool.false_ne_true]
      dsimp only
      rw [map_isEmpty_eq, hE]
      rw [if_neg Bool.false_ne_true]
      simp only [Bool.or_assoc, Bool.or_self, Table.mk.injEq, and_true, true_and,
        eq_self_iff_true]
      rw [List.map_map]
      exact List.map_congr_left (fun a _ => serviceNormRow_idem _ _ _ a)
  · cases hE : t.rows.isEmpty with
    | true =>
      have h1 : normalize_dataframe_simple t = t := by
        unfold normalize_dataframe_simple
        rw [hE]
        rfl
      rw [h1]
      exact h1
    | false =>
      unfold normalize_dataframe_simple
      rw [hE]
      rw [if_neg Bool.false_ne_true]
      dsimp only
      rw [map_isEmpty_eq, hE]
      rw [if_neg Bool.false_ne_true]
      simp only [Bool.or_assoc, Bool.or_self, Table.mk.injEq, and_true, true_and,
        eq_self_iff_true]
      rw [List.map_map]
      exact List.map_congr_left (fun a _ => simpleNormRow_idem _ _ a)

/-! ## Claim C10 -/

/-- C10: `calculate_kpis` computes `in_progress = started - completed`
with no lower bound: on the one-record table `c10T` — a real completion
date, a status text (`"no"`) that classifies as Not Started, and no
start-date column — the returned KPIs have `started = 0`,
`completed = 1` and `in_progress = -1`. -/
theorem C10_negative_in_progress :
    calculate_kpis (normalize_dataframe_service c10T) = some
      { total_students := 1, started := 0, not_started := 1, completed := 1,
        in_progress := -1, start_rate := 0, completion_rate := 100 } := by decide

/-! ## Claim C4 -/

/-- C4: for every non-empty table, `calculate_kpis` (identical in both
variants) returns `total = |rows|`, `started = count(Status_Clean ==
Started)` (`countStarted`), `not_started = total - started`,
`completed = sum(Is_Completed)` (`sumCompleted`), `in_progress =
started - completed`, `start_rate = round(started / total * 100, 1)` and
`completion_rate = round(completed / total * 100, 1)` — with `total` as
the denominator of `completion_rate` — so that
`started + not_started = total` and `completed + in_progress = started`
always hold. -/
theorem C4_kpi_identities (t : Table) (h : t.rows ≠ []) :
    calculate_kpis t = some {
      total_students := t.rows.length
      started := countStarted t
      not_started := t.rows.length - countStarted t
      completed := sumCompleted t
      in_progress := (countStarted t : Int) - (sumCompleted t : Int)
      start_rate := pyroundQ ((countStarted t : ℚ) / (t.rows.length : ℚ) * 100)
      completion_rate := pyroundQ ((sumCompleted t : ℚ) / (t.rows.length : ℚ) * 100) } ∧
    countStarted t + (t.rows.length - countStarted t) = t.rows.length ∧
    (sumCompleted t : Int) + ((countStarted t : Int) - (sumCompleted t : Int))
      = (countStarted t : Int) := by
  have hpos : 0 < t.rows.length := List.length_pos.mpr h
  refine ⟨?_, ?_, by ring⟩
  · rw [calculate_kpis_some t h, roundPct1_eq_pyroundQ _ _ hpos,
      roundPct1_eq_pyroundQ _ _ hpos]
  · have := countStarted_le_length t
    omega

/-- Witness for C4 at the three-row spec example (`specExample`):
statuses `"Started"`, `"not started"`, `"yes"`, completion dates
`"2023-01-01"`, `""`, `"NaT"`. -/
theorem C4_kpi_identities_witness :
    specExample.rows ≠ [] ∧
    (calculate_kpis specExample = some {
      total_students := specExample.rows.length
      started := countStarted specExample
      not_started := specExample.rows.length - countStarted specExample
      completed := sumCompleted specExample
      in_progress := (countStarted specExample : Int) - (sumCompleted specExample : Int)
      start_rate :=
        pyroundQ ((countStarted specExample : ℚ) / (specExample.rows.length : ℚ) * 100)
      completion_rate :=
        pyroundQ ((sumCompleted specExample : ℚ) / (specExample.rows.length : ℚ) * 100) } ∧
    countStarted specExample + (specExample.rows.length - countStarted specExample)
      = specExample.rows.length ∧
    (sumCompleted specExample : Int)
        + ((countStarted specExample : Int) - (sumCompleted specExample : Int))
      = (countStarted specExample : Int)) :=
  ⟨by decide, C4_kpi_identities specExample (by decide)⟩

/-! ## Claim C5 -/

/-- C5 as stated is false: in a tutor group, `Completed` counts
completed records that need not be started (`Started` is the
denominator of `Completion_Rate_%`), and `Started` records need not
have a non-null `Student_Name` (`Total_Students` is the denominator of
`Start_Rate_%`).  On the normalized `c5T`, the single tutor group has
`Total_Students = 1`, `Started = 2`, `Completed = 3`, so
`Start_Rate_% = 200` and `Completion_Rate_% = 150`, both outside
`[0, 100]`. -/
theorem C5_counterexample :
    create_tutor_performance (normalize_dataframe_service c5T) =
      .ok [{ key := "A", total_Students := 1, started := 2, completed := 3,
             in_Progress := some 0, start_Rate_Pct := some 200,
             completion_Rate_Pct := 150 }] ∧
    ¬((200 : ℚ) ≤ 100) ∧ ¬((150 : ℚ) ≤ 100) :=
  ⟨rfl, by norm_num, by norm_num⟩

/-- C5 amended: every zero-denominator rate is exactly 0 (never an
error), every rate is nonnegative, and the two `calculate_kpis` rates
always lie in `[0, 100]`; the per-group breakdown rates `Start_Rate_%`
and `Completion_Rate_%` are nonnegative and 0 on a zero denominator but
can exceed 100 (see `C5_counterexample`). -/
theorem C5_amended_rates (t : Table) (h : t.rows ≠ []) :
    (∃ k : KPIs, calculate_kpis t = some k ∧
      0 ≤ k.start_rate ∧ k.start_rate ≤ 100 ∧
      0 ≤ k.completion_rate ∧ k.completion_rate ≤ 100) ∧
    (∀ bs : List BreakRow,
      (create_tutor_performance t = .ok bs ∨ create_team_performance t = .ok bs ∨
        create_course_analysis t = .ok bs) →
      ∀ b ∈ bs,
        0 ≤ b.completion_Rate_Pct ∧ (b.started = 0 → b.completion_Rate_Pct = 0) ∧
        ∀ q : ℚ, b.start_Rate_Pct = some q → 0 ≤ q ∧ (b.total_Students = 0 → q = 0)) := by
  have hpos : 0 < t.rows.length := List.length_pos.mpr h
  constructor
  · refine ⟨_, calculate_kpis_some t h, ?_, ?_, ?_, ?_⟩
    · exact roundPct1_nonneg _ _ hpos
    · exact roundPct1_le_100 _ _ hpos (countStarted_le_length t)
    · exact roundPct1_nonneg _ _ hpos
    · exact roundPct1_le_100 _ _ hpos (sumCompleted_le_length t)
  · intro bs hbs
    have hcases : bs = [] ∨ ∃ w key, bs = breakdownRows w key t.rows := by
      rcases hbs with hb | hb | hb
      · unfold create_tutor_performance at hb
        split_ifs at hb with h1 h2
        · exact Or.inl (Except.ok.inj hb).symm
        · exact Or.inr ⟨true, _, (Except.ok.inj hb).symm⟩
      · unfold create_team_performance at hb
        split_ifs at hb with h1 h2
        · exact Or.inl (Except.ok.inj hb).symm
        · exact Or.inr ⟨false, _, (Except.ok.inj hb).symm⟩
      · unfold create_course_analysis at hb
        split_ifs at hb with h1 h2
        · exact Or.inl (Except.ok.inj hb).symm
        · exact Or.inr ⟨false, _, (Except.ok.inj hb).symm⟩
    rcases hcases with rfl | ⟨w, key, rfl⟩
    · intro b hb
      exact absurd hb (List.not_mem_nil b)
    · exact breakdownRows_rate_bounds w key t.rows

/-- Witness for C5 (amended) at the three-row spec example. -/
theorem C5_amended_rates_witness :
    specExample.rows ≠ [] ∧
    (∃ k : KPIs, calculate_kpis specExample = some k ∧
      0 ≤ k.start_rate ∧ k.start_rate ≤ 100 ∧
      0 ≤ k.completion_rate ∧ k.completion_rate ≤ 100) :=
  ⟨by decide, (C5_amended_rates specExample (by decide)).1⟩

/-! ## Lemmas: membership in normalized tables -/

theorem mem_normalize_service_rows (t : Table) (r : Row) :
    r ∈ (normalize_dataframe_service t).rows →
    ∃ a ∈ t.rows, r = serviceNormRow t.hasStatus
      (t.hasStartedDate && (t.hasStatusClean || t.hasStatus)) t.hasCompletedDate a := by
  intro hr
  unfold normalize_dataframe_service at hr
  cases hE : t.rows.isEmpty with
  | true =>
    rw [hE, if_pos rfl] at hr
    rw [List.isEmpty_iff.mp hE] at hr
    exact absurd hr (List.not_mem_nil r)
  | false =>
    rw [hE, if_neg Bool.false_ne_true] at hr
    dsimp only at hr
    obtain ⟨a, ha, rfl⟩ := List.mem_map.mp hr
    exact ⟨a, ha, rfl⟩

theorem mem_normalize_simple_rows (t : Table) (r : Row) :
    r ∈ (normalize_dataframe_simple t).rows →
    ∃ a ∈ t.rows, r = simpleNormRow t.hasStatus t.hasCompletedDate a := by
  intro hr
  unfold normalize_dataframe_simple at hr
  cases hE : t.rows.isEmpty with
  | true =>
    rw [hE, if_pos rfl] at hr
    rw [List.isEmpty_iff.mp hE] at hr
    exact absurd hr (List.not_mem_nil r)
  | false =>
    rw [hE, if_neg Bool.false_ne_true] at hr
    dsimp only at hr
    obtain ⟨a, ha, rfl⟩ := List.mem_map.mp hr
    exact ⟨a, ha, rfl⟩

theorem is_completed_service_eq (x : Cell) :
    is_completed_service x
      = (x.isSome && !(sentinels.contains (pyStrip (cellStr x)))) := by
  cases x with
  | none => decide
  | some s =>
    by_cases hs : s = ""
    · subst hs; decide
    · have hb : (s != "") = true := bne_iff_ne.mpr hs
      simp [is_completed_service, cellBool, cellStr, hb]

/-! ## Claim C1 -/

/-- C1 as stated is false for the simple (CSV) variant: its
classification matches the bare stem `"start"` with no `"not"`
exclusion, so the status text `"not started"` — which the claimed rule
(`specStartedRule`) classifies as Not Started — yields
`Status_Clean = "Started"` there, while the service variant yields
`"Not Started"`. -/
theorem C1_counterexample :
    specStartedRule (pyStrip (pyLower "not started")) = false ∧
    (normalize_dataframe_simple c1T).rows.map Row.statusClean = ["Started"] ∧
    (normalize_dataframe_service c1T).rows.map Row.statusClean = ["Not Started"] := by
  refine ⟨by decide, rfl, rfl⟩

/-- C1 amended: whenever the table has a raw status column, both
variants give every record a `Status_Clean` that is exactly one of
`"Started"` / `"Not Started"`; the claimed text rule (contains
`"started"` without `"not"`, or contains `"yes"`, on the lower-cased
trimmed text) is exactly the service variant's pre-cross-verify
classification `clean_status`, while the simple variant classifies as
`"Started"` precisely when the lower-cased (untrimmed) text contains
`"start"` or `"yes"`. -/
theorem C1_amended_status (t : Table) (h : t.hasStatus = true) :
    (∀ r ∈ (normalize_dataframe_service t).rows,
      r.statusClean = "Started" ∨ r.statusClean = "Not Started") ∧
    (∀ r ∈ (normalize_dataframe_simple t).rows,
      r.statusClean = "Started" ∨ r.statusClean = "Not Started") ∧
    (∀ x : Cell, clean_status x =
      if specStartedRule (pyStrip (pyLower (cellStr x))) then "Started"
      else "Not Started") ∧
    (∀ x : Cell, cleanStatusSimple x =
      if strContains (pyLower (cellStr x)) "start" ||
         strContains (pyLower (cellStr x)) "yes" then "Started" else "Not Started") := by
  refine ⟨?_, ?_, ?_, fun x => rfl⟩
  · intro r hr
    obtain ⟨a, _, rfl⟩ := mem_normalize_service_rows t r hr
    rw [serviceNormRow_statusClean]
    split_ifs with h1
    · exact Or.inl rfl
    · exact clean_status_two_valued a.status
  · intro r hr
    obtain ⟨a, _, rfl⟩ := mem_normalize_simple_rows t r hr
    rw [simpleNormRow_statusClean, if_pos h]
    exact cleanStatusSimple_two_valued a.status
  · intro x
    unfold clean_status specStartedRule
    dsimp only
    cases h1 : strContains (pyStrip (pyLower (cellStr x))) "started" <;>
      cases h2 : strContains (pyStrip (pyLower (cellStr x))) "not" <;>
      cases h3 : strContains (pyStrip (pyLower (cellStr x))) "yes" <;>
      simp [h1, h2, h3]

/-- Witness for C1 (amended) at the raw spec example table. -/
theorem C1_amended_status_witness :
    specRaw.hasStatus = true ∧
    ∀ r ∈ (normalize_dataframe_service specRaw).rows,
      r.statusClean = "Started" ∨ r.statusClean = "Not Started" :=
  ⟨rfl, (C1_amended_status specRaw rfl).1⟩

/-! ## Claim C2 -/

/-- C2 as stated is false for the simple (CSV) variant: its completion
test is `notna(x) & (x != '')` with no trimming and no sentinel-string
check, so on the claim's own three completion dates `"2023-01-01"`,
`""`, `"NaT"` it produces `Is_Completed = [true, false, true]`, not the
claimed `[true, false, false]`. -/
theorem C2_counterexample :
    (normalize_dataframe_simple c2T).rows.map Row.isCompleted = [true, false, true] ∧
    [true, false, true] ≠ [true, false, false] := by
  refine ⟨rfl, by decide⟩

/-- C2 amended: the claimed rule — `Is_Completed` is true iff the
completion-date value is present, non-null, and its trimmed string cast
is none of the sentinels `""`, `"nan"`, `"None"`, `"NaT"`; all records
false when the column is absent — is exactly the service variant.  The
simple variant instead sets `Is_Completed` iff the value is present and
different from the empty string (no trim, no sentinel check), and when
no completion-date column exists it creates no `Is_Completed` column at
all (its `calculate_kpis` then treats the sum as 0). -/
theorem C2_amended_completion (t : Table) :
    (t.hasCompletedDate = true → ∀ r ∈ (normalize_dataframe_service t).rows,
      r.isCompleted = (r.completedDate.isSome &&
        !(sentinels.contains (pyStrip (cellStr r.completedDate))))) ∧
    (t.hasCompletedDate = false → ∀ r ∈ (normalize_dataframe_service t).rows,
      r.isCompleted = false) ∧
    (t.hasCompletedDate = true → ∀ r ∈ (normalize_dataframe_simple t).rows,
      r.isCompleted = (r.completedDate.isSome && r.completedDate != some "")) ∧
    (t.hasCompletedDate = false →
      (normalize_dataframe_simple t).hasIsCompleted = t.hasIsCompleted ∧
      (normalize_dataframe_simple t).rows.map Row.isCompleted =
        t.rows.map Row.isCompleted) := by
  refine ⟨?_, ?_, ?_, ?_⟩
  · intro hcd r hr
    obtain ⟨a, _, rfl⟩ := mem_normalize_service_rows t r hr
    rw [serviceNormRow_isCompleted, (serviceNormRow_raw_fields _ _ _ a).2.2,
      if_pos hcd]
    exact is_completed_service_eq a.completedDate
  · intro hcd r hr
    obtain ⟨a, _, rfl⟩ := mem_normalize_service_rows t r hr
    rw [serviceNormRow_isCompleted, if_neg (by simp [hcd])]
  · intro hcd r hr
    obtain ⟨a, _, rfl⟩ := mem_normalize_simple_rows t r hr
    rw [simpleNormRow_isCompleted, (simpleNormRow_raw_fields _ _ a).2.2, if_pos hcd]
    rfl
  · intro hcd
    unfold normalize_dataframe_simple
    cases hE : t.rows.isEmpty with
    | true => rw [if_pos rfl]; exact ⟨rfl, rfl⟩
    | false =>
      rw [if_neg Bool.false_ne_true]
      dsimp only
      constructor
      · rw [hcd, Bool.or_false]
      · rw [List.map_map]
        apply List.map_congr_left
        intro a _
        show (simpleNormRow t.hasStatus t.hasCompletedDate a).isCompleted = a.isCompleted
        rw [simpleNormRow_isCompleted, if_neg (by simp [hcd])]

/-- Witness for C2 (amended) at the table `c2T`, whose completion dates
are the claim's example values. -/
theorem C2_amended_completion_witness :
    c2T.hasCompletedDate = true ∧
    ∀ r ∈ (normalize_dataframe_service c2T).rows,
      r.isCompleted = (r.completedDate.isSome &&
        !(sentinels.contains (pyStrip (cellStr r.completedDate)))) :=
  ⟨rfl, (C2_amended_completion c2T).1 rfl⟩

/-! ## Claim C3 -/

/-- C3 as stated is false for the simple (CSV) variant: it has no
start-date cross-verify step at all, so a record with start date
`"2024-03-01"` (trimmed length 10 > 4) whose status text `"no"`
classifies as Not Started keeps `Status_Clean = "Not Started"`. -/
theorem C3_counterexample :
    startedDateLong (some "2024-03-01") = true ∧
    (normalize_dataframe_simple c3T).rows.map Row.statusClean = ["Not Started"] := by
  refine ⟨by decide, rfl⟩

/-- C3 amended: in the service variant, whenever the table has a
start-date column (and a `Status_Clean` column exists or is derived
from a raw status column), every record whose trimmed start-date string
is longer than 4 characters ends with `Status_Clean = "Started"`,
regardless of the text classification; the simple variant applies no
such override. -/
theorem C3_amended_override (t : Table) (h1 : t.hasStartedDate = true)
    (h2 : (t.hasStatusClean || t.hasStatus) = true) :
    ∀ r ∈ (normalize_dataframe_service t).rows,
      startedDateLong r.startedDate = true → r.statusClean = "Started" := by
  intro r hr hlong
  obtain ⟨a, _, rfl⟩ := mem_normalize_service_rows t r hr
  rw [(serviceNormRow_raw_fields _ _ _ a).2.1] at hlong
  rw [serviceNormRow_statusClean, if_pos (by rw [h1, h2, hlong]; rfl)]

/-- Witness for C3 (amended) at the spec's own override example: start
date `"2024-03-01"` with status text `"Not Started"`. -/
theorem C3_amended_override_witness :
    c3WT.hasStartedDate = true ∧ (c3WT.hasStatusClean || c3WT.hasStatus) = true ∧
    ∀ r ∈ (normalize_dataframe_service c3WT).rows,
      startedDateLong r.startedDate = true → r.statusClean = "Started" :=
  ⟨rfl, rfl, C3_amended_override c3WT rfl rfl⟩

/-! ## Claim C6 -/

/-- C6 as stated is false: pandas `groupby` drops records whose
grouping cell is null and the `'count'` aggregation skips null
`Student_Name` cells, so the per-group `Total_Students` values sum to
the number of records with both cells non-null, not to the table's
total record count.  On `c6T` (two records, the second with a null
`Tutor` cell) the breakdown's totals sum to 1 while the table has 2
records. -/
theorem C6_counterexample :
    create_tutor_performance c6T = .ok c6Expected ∧
    (c6Expected.map BreakRow.total_Students).sum = 1 ∧
    c6T.rows.length = 2 ∧ (1 : Nat) ≠ 2 := by
  refine ⟨rfl, rfl, rfl, by decide⟩

/-- C6 amended: for every non-empty table with the aggregated columns
present, each breakdown has exactly one row per distinct non-null value
of its grouping column and its rows are sorted by `Total_Students`
descending; the per-group `Total_Students` values sum to the number of
records whose grouping cell and `Student_Name` cell are both non-null
(which equals the table's total record count only when neither column
has nulls). -/
theorem C6_amended_breakdowns (t : Table)
    (hsn : t.hasStudentName = true) (hsc : t.hasStatusClean = true)
    (hic : t.hasIsCompleted = true) (hcs : t.hasCompletionStatus = true)
    (hne : t.rows ≠ []) :
    (t.hasTutor = true → ∃ bs, create_tutor_performance t = .ok bs ∧
      bs.length = ((t.rows.filterMap (fun r => r.tutor)).dedup).length ∧
      (bs.map BreakRow.total_Students).sum =
        (t.rows.filter (fun r => (r.tutor).isSome && r.studentName.isSome)).length ∧
      bs.Sorted byTotalDesc) ∧
    (t.hasTeam = true → ∃ bs, create_team_performance t = .ok bs ∧
      bs.length = ((t.rows.filterMap (fun r => r.team)).dedup).length ∧
      (bs.map BreakRow.total_Students).sum =
        (t.rows.filter (fun r => (r.team).isSome && r.studentName.isSome)).length ∧
      bs.Sorted byTotalDesc) ∧
    (t.hasCourse = true → ∃ bs, create_course_analysis t = .ok bs ∧
      bs.length = ((t.rows.filterMap (fun r => r.course)).dedup).length ∧
      (bs.map BreakRow.total_Students).sum =
        (t.rows.filter (fun r => (r.course).isSome && r.studentName.isSome)).length ∧
      bs.Sorted byTotalDesc) := by
  have hE : t.rows.isEmpty = false := by
    cases hr : t.rows
    · exact absurd hr hne
    · rfl
  refine ⟨?_, ?_, ?_⟩
  · intro hkey
    refine ⟨breakdownRows true (fun r => r.tutor) t.rows, ?_,
      breakdownRows_length _ _ _, breakdownRows_sum _ _ _, breakdownRows_sorted _ _ _⟩
    unfold create_tutor_performance
    rw [hE, hkey, hsn, hsc, hic, hcs]
    rfl
  · intro hkey
    refine ⟨breakdownRows false (fun r => r.team) t.rows, ?_,
      breakdownRows_length _ _ _, breakdownRows_sum _ _ _, breakdownRows_sorted _ _ _⟩
    unfold create_team_performance
    rw [hE, hkey, hsn, hsc, hic]
    rfl
  · intro hkey
    refine ⟨breakdownRows false (fun r => r.course) t.rows, ?_,
      breakdownRows_length _ _ _, breakdownRows_sum _ _ _, breakdownRows_sorted _ _ _⟩
    unfold create_course_analysis
    rw [hE, hkey, hsn, hsc, hic]
    rfl

/-- Witness for C6 (amended) at the three-record normalized table
`c6WT` (tutors A, B, A). -/
theorem C6_amended_breakdowns_witness :
    c6WT.hasStudentName = true ∧ c6WT.hasStatusClean = true ∧
    c6WT.hasIsCompleted = true ∧ c6WT.hasCompletionStatus = true ∧
    c6WT.rows ≠ [] ∧ c6WT.hasTutor = true ∧
    ∃ bs, create_tutor_performance c6WT = .ok bs ∧
      bs.length = ((c6WT.rows.filterMap (fun r => r.tutor)).dedup).length ∧
      (bs.map BreakRow.total_Students).sum =
        (c6WT.rows.filter (fun r => (r.tutor).isSome && r.studentName.isSome)).length ∧
      bs.Sorted byTotalDesc :=
  ⟨rfl, rfl, rfl, rfl, by decide, rfl,
    (C6_amended_breakdowns c6WT rfl rfl rfl rfl (by decide)).1 rfl⟩

/-! ## Claim C7 -/

/-- C7 as stated is false: when the grouping column is present and the
table non-empty but an aggregated column is missing, pandas named
aggregation raises a `KeyError`.  The normalized table `c7T` is
non-empty and has a `Tutor` column but no `Student_Name` column, and
`create_tutor_performance` raises (modelled as `.error`). -/
theorem C7_counterexample :
    c7T.rows ≠ [] ∧ c7T.hasTutor = true ∧ c7T.hasStudentName = false ∧
    create_tutor_performance c7T = .error "KeyError: aggregation column does not exist" := by
  refine ⟨by decide, rfl, rfl, rfl⟩

/-- C7 amended: each of the three breakdown functions returns an empty
breakdown — and does not raise — whenever the grouping column is absent
or the table is empty; but when the grouping column is present, the
table is non-empty, and one of the aggregated columns (`Student_Name`,
`Status_Clean`, `Is_Completed`, and additionally `Completion_Status`
for the tutor breakdown) is missing, the aggregation raises a
`KeyError` (modelled as `.error`). -/
theorem C7_amended_guards (t : Table) :
    (t.rows = [] ∨ t.hasTutor = false → create_tutor_performance t = .ok []) ∧
    (t.rows = [] ∨ t.hasTeam = false → create_team_performance t = .ok []) ∧
    (t.rows = [] ∨ t.hasCourse = false → create_course_analysis t = .ok []) ∧
    (t.rows ≠ [] → t.hasTutor = true →
      (t.hasStudentName && t.hasStatusClean && t.hasIsCompleted &&
        t.hasCompletionStatus) = false →
      ∃ e, create_tutor_performance t = .error e) ∧
    (t.rows ≠ [] → t.hasTeam = true →
      (t.hasStudentName && t.hasStatusClean && t.hasIsCompleted) = false →
      ∃ e, create_team_performance t = .error e) ∧
    (t.rows ≠ [] → t.hasCourse = true →
      (t.hasStudentName && t.hasStatusClean && t.hasIsCompleted) = false →
      ∃ e, create_course_analysis t = .error e) := by
  refine ⟨?_, ?_, ?_, ?_, ?_, ?_⟩
  · intro h
    unfold create_tutor_performance
    rcases h with h | h <;> simp [h]
  · intro h
    unfold create_team_performance
    rcases h with h | h <;> simp [h]
  · intro h
    unfold create_course_analysis
    rcases h with h | h <;> simp [h]
  · intro hne hkey hmiss
    have hE : t.rows.isEmpty = false := by
      cases hr : t.rows
      · exact absurd hr hne
      · rfl
    unfold create_tutor_performance
    rw [hE, hkey, hmiss]
    exact ⟨_, rfl⟩
  · intro hne hkey hmiss
    have hE : t.rows.isEmpty = false := by
      cases hr : t.rows
      · exact absurd hr hne
      · rfl
    unfold create_team_performance
    rw [hE, hkey, hmiss]
    exact ⟨_, rfl⟩
  · intro hne hkey hmiss
    have hE : t.rows.isEmpty = false := by
      cases hr : t.rows
      · exact absurd hr hne
      · rfl
    unfold create_course_analysis
    rw [hE, hkey, hmiss]
    exact ⟨_, rfl⟩

/-- Witness for C7 (amended) at the empty table. -/
theorem C7_amended_guards_witness :
    (emptyTable.rows = [] ∨ emptyTable.hasTutor = false) ∧
    create_tutor_performance emptyTable = .ok [] :=
  ⟨Or.inl rfl, (C7_amended_guards emptyTable).1 (Or.inl rfl)⟩
